import Mathlib

/-!
Verification of the ArchGenie backend cost-estimation pipeline
(`src/backend/api.py`) against its natural-language specification.

The Python source is shallowly embedded: strings are `String`/`List Char`,
Python floats are modelled as exact rationals `ℚ`, dictionaries with
optional keys become structures with `Option` fields, and the two external
effects (the Azure retail-prices HTTP fetch and the process-wide price
cache) are passed in explicitly as an `Env` of functions.  Regular
expressions from the source are compiled by hand into executable scanners
with the same matching semantics on the inputs of interest.
-/

namespace ArchGenie

/-! ## Character and string helpers (Python semantics) -/

/-- Python `\s` (whitespace) for the ASCII texts this service handles. -/
def isPySpace (c : Char) : Bool :=
  c = ' ' ∨ c = '\t' ∨ c = '\n' ∨ c = '\r' ∨ c = '\x0b' ∨ c = '\x0c'

/-- Python `\w` (word character), ASCII. -/
def pyWordChar (c : Char) : Bool :=
  ('a' ≤ c ∧ c ≤ 'z') ∨ ('A' ≤ c ∧ c ≤ 'Z') ∨ ('0' ≤ c ∧ c ≤ '9') ∨ c = '_'

/-- ASCII lower-casing, as `str.lower()` does on this service's texts. -/
def lowChar (c : Char) : Char :=
  if 'A' ≤ c ∧ c ≤ 'Z' then Char.ofNat (c.toNat + 32) else c

/-- ASCII upper-casing. -/
def upChar (c : Char) : Char :=
  if 'a' ≤ c ∧ c ≤ 'z' then Char.ofNat (c.toNat - 32) else c

def isAsciiLetter (c : Char) : Bool :=
  ('a' ≤ c ∧ c ≤ 'z') ∨ ('A' ≤ c ∧ c ≤ 'Z')

def lowerStr (s : String) : String := ⟨s.data.map lowChar⟩

/-- `listPre p l` : `p` is a prefix of `l`. -/
def listPre : List Char → List Char → Bool
  | [], _ => true
  | _ :: _, [] => false
  | p :: ps, c :: cs => p = c && listPre ps cs

/-- `containsSub pat l` : `pat` occurs as a contiguous sublist of `l`. -/
def containsSub (pat : List Char) : List Char → Bool
  | [] => listPre pat []
  | c :: rest => listPre pat (c :: rest) || containsSub pat rest

/-- `strContains s pat` : Python `pat in s`. -/
def strContains (s pat : String) : Bool := containsSub pat.data s.data

/-- Python `str.strip()` (whitespace on both ends). -/
def trimList (l : List Char) : List Char :=
  ((l.dropWhile isPySpace).reverse.dropWhile isPySpace).reverse

def trimStr (s : String) : String := ⟨trimList s.data⟩

/-- Python `str.startswith`. -/
def strStarts (s pre : String) : Bool := listPre pre.data s.data

/-- Python `str.endswith`. -/
def strEnds (s suf : String) : Bool := listPre suf.data.reverse s.data.reverse

/-- Python `str.replace(pat, rep)` (all occurrences, left to right),
with a fuel argument that is always large enough. -/
def replaceSub (pat rep : List Char) : Nat → List Char → List Char
  | 0, l => l
  | _ + 1, [] => []
  | fuel + 1, c :: rest =>
    if pat ≠ [] ∧ listPre pat (c :: rest) then
      rep ++ replaceSub pat rep fuel ((c :: rest).drop pat.length)
    else
      c :: replaceSub pat rep fuel rest

def replaceStr (s pat rep : String) : String :=
  ⟨replaceSub pat.data rep.data s.data.length s.data⟩

/-- Python `str.title()`: a letter that follows a non-letter is upper-cased,
all other letters are lower-cased. -/
def titleGo : Bool → List Char → List Char
  | _, [] => []
  | prevAlpha, c :: rest =>
    if isAsciiLetter c then
      (if prevAlpha then lowChar c else upChar c) :: titleGo true rest
    else
      c :: titleGo false rest

def pyTitle (s : String) : String := ⟨titleGo false s.data⟩

/-- Split on `'\n'` keeping every part (n newlines give n+1 parts). -/
def splitAllNL : List Char → List (List Char)
  | [] => [[]]
  | c :: rest =>
    if c = '\n' then [] :: splitAllNL rest
    else
      match splitAllNL rest with
      | [] => [[c]]
      | p :: ps => (c :: p) :: ps

/-- Python `str.splitlines()` restricted to `'\n'` boundaries. -/
def pySplitlines (l : List Char) : List (List Char) :=
  if l = [] then []
  else if l.getLast? = some '\n' then (splitAllNL l).dropLast
  else splitAllNL l

def joinNL (ls : List (List Char)) : List Char := List.intercalate ['\n'] ls

/-! ## Diagram sanitizer (`sanitize_mermaid`, api.py lines 117-156)

The four `re.sub` passes are compiled into equivalent scanners.  The two
`^...$` `MULTILINE` substitutions are applied per line; the global ones
scan the whole text with the same leftmost-match, single-pass semantics
as `re.sub`. -/

/-- Character class `[^\[\n"]` of the sub-graph title group (within a line). -/
def titleCharOK (c : Char) : Bool := ¬(c = '[' ∨ c = '"')

/-- Rest of line after the quoted-title match: `\s*;?\s*$`. -/
def sgTailOK (l : List Char) : Bool :=
  match l.dropWhile isPySpace with
  | [] => true
  | ';' :: t => (t.dropWhile isPySpace).isEmpty
  | _ => false

/-- Close-paren and tail check used by `findParen`. -/
def closeOK : List Char → Bool
  | ')' :: t => sgTailOK t
  | _ => false

/-- Greedy search for the title/parenthesis split of
`subgraph TITLE (QUAL)` : the rightmost feasible `'('` wins, matching the
greedy group `([^\[\n"]+)` of the Python pattern. -/
def findParen (body : List Char) : Nat → Option (List Char × List Char)
  | 0 => none
  | p + 1 =>
    match
      (if body[p]? = some '(' then
        let A := body.take p
        let rest := body.drop (p + 1)
        let B := rest.takeWhile (fun c => c ≠ ')')
        let tl := rest.drop B.length
        if ¬A.isEmpty ∧ A.all titleCharOK ∧ ¬B.isEmpty ∧ closeOK tl then
          some (A, B)
        else none
      else none) with
    | some r => some r
    | none => findParen body p

/-- Line pass for
`re.sub(r'^\s*subgraph\s+([^\[\n"]+)\s*\(([^)]+)\)\s*;?\s*$', r'subgraph "\1 (\2)"', ...)`. -/
def stage1Line (line : List Char) : List Char :=
  let ws := line.takeWhile isPySpace
  let r1 := line.drop ws.length
  if listPre "subgraph".data r1 then
    let r2 := r1.drop 8
    let ws1 := r2.takeWhile isPySpace
    if ws1.isEmpty then line
    else
      let body := r2.drop ws1.length
      match findParen body body.length with
      | some (A, B) => "subgraph \"".data ++ A ++ " (".data ++ B ++ [')', '"']
      | none => line
  else line

/-- Line pass for
`re.sub(r'^(?P<hdr>\s*subgraph\b[^\n;]*?);+\s*$', r'\g<hdr>', ...)`. -/
def stage2Line (line : List Char) : List Char :=
  let ws := line.takeWhile isPySpace
  let r1 := line.drop ws.length
  if listPre "subgraph".data r1 then
    let r2 := r1.drop 8
    if (match r2 with | [] => true | c :: _ => ¬pyWordChar c) then
      let X := r2.takeWhile (fun c => c ≠ ';')
      let rest := r2.drop X.length
      let semis := rest.takeWhile (fun c => c = ';')
      let tl := rest.drop semis.length
      if ¬semis.isEmpty ∧ tl.all isPySpace then ws ++ "subgraph".data ++ X
      else line
    else line
  else line

/-- Character class `[^.|><\-\n]` of the dotted-edge label group. -/
def labelCharOK (c : Char) : Bool :=
  ¬(c = '.' ∨ c = '|' ∨ c = '>' ∨ c = '<' ∨ c = '-' ∨ c = '\n')

/-- Lazy extension of the dotted-edge label (group `...*?`), returning the
label and the remainder after the closing `\s+\.\->`. -/
def grpFind : List Char → List Char → Option (List Char × List Char)
  | acc, l =>
    let ws := l.takeWhile isPySpace
    let after := l.drop ws.length
    if ¬ws.isEmpty ∧ listPre ['.', '-', '>'] after then
      some (acc.reverse, after.drop 3)
    else
      match l with
      | [] => none
      | c :: r => if labelCharOK c then grpFind (c :: acc) r else none

/-- Scanner for
`re.sub(r'-\.\s+([^.|><\-\n][^.|><\-\n]*?)\s+\.\->', r'-. |\1| .->', s)`. -/
def stage3Go : Nat → List Char → List Char
  | 0, l => l
  | _ + 1, [] => []
  | fuel + 1, '-' :: '.' :: rest =>
    let ws := rest.takeWhile isPySpace
    let after := rest.drop ws.length
    match
      (if ws.isEmpty then none
       else
         match after with
         | c :: r =>
           if labelCharOK c then
             match grpFind [c] r with
             | some (grp, rest2) => some (grp, rest2)
             | none => none
           else none
         | [] => none) with
    | some (grp, rest2) =>
      '-' :: '.' :: ' ' :: '|' ::
        (grp ++ ('|' :: ' ' :: '.' :: '-' :: '>' :: stage3Go fuel rest2))
    | none => '-' :: stage3Go fuel ('.' :: rest)
  | fuel + 1, c :: rest => c :: stage3Go fuel rest

def stage3 (l : List Char) : List Char := stage3Go l.length l

/-- One line of the edge/node terminator loop of `sanitize_mermaid`. -/
def lineFix (line : List Char) : List Char :=
  let stripped := trimList line
  if stripped.isEmpty then []
  else if listPre "subgraph".data stripped ∨ stripped = "end".data then stripped
  else if containsSub "--".data stripped || containsSub ".->".data stripped ||
      containsSub "---".data stripped then
    (if stripped.getLast? = some ';' then stripped else stripped ++ [';'])
  else
    (stripped.reverse.dropWhile (fun c => c = ';')).reverse

/-- Lookahead tail check for the token-gluing pass: next char is `-` or `.`. -/
def headDashDot : List Char → Bool
  | c :: _ => c = '-' ∨ c = '.'
  | [] => false

/-- Scanner for
`re.sub(r'(\]|\))\s*(?=[A-Za-z0-9_]+\s*(?:-|\.))', r'\1\n', s)`. -/
def glueGo : Nat → List Char → List Char
  | 0, l => l
  | _ + 1, [] => []
  | fuel + 1, c :: rest =>
    if c = ']' ∨ c = ')' then
      let ws := rest.takeWhile isPySpace
      let after := rest.drop ws.length
      let w := after.takeWhile pyWordChar
      let rest2 := (after.drop w.length).dropWhile isPySpace
      if ¬w.isEmpty ∧ headDashDot rest2 then
        c :: '\n' :: glueGo fuel after
      else c :: glueGo fuel rest
    else c :: glueGo fuel rest

def glue (l : List Char) : List Char := glueGo l.length l

/-- Scanner for
`re.sub(r'\[(.*?)\]', lambda m: "[" + m.group(1).replace(",", "") + "]", s)`. -/
def decommaGo : Nat → List Char → List Char
  | 0, l => l
  | _ + 1, [] => []
  | fuel + 1, c :: rest =>
    if c = '[' then
      let pre := rest.takeWhile (fun x => ¬(x = ']' ∨ x = '\n'))
      let tl := rest.drop pre.length
      match tl with
      | ']' :: t => '[' :: (pre.filter (fun x => x ≠ ',') ++ (']' :: decommaGo fuel t))
      | _ => c :: decommaGo fuel rest
    else c :: decommaGo fuel rest

def decomma (l : List Char) : List Char := decommaGo l.length l

/-- Final step: `if not s.endswith("\n"): s += "\n"`. -/
def ensureNL (l : List Char) : List Char :=
  if l.getLast? = some '\n' then l else l ++ ['\n']

/-- Body of `sanitize_mermaid` on a non-empty input. -/
def sanitizeCore (l : List Char) : List Char :=
  let s1 := joinNL ((splitAllNL l).map (fun ln => stage2Line (stage1Line ln)))
  let s2 := stage3 s1
  let s3 := joinNL ((pySplitlines s2).map lineFix)
  let s4 := glue s3
  let s5 := decomma s4
  ensureNL s5

/-- `sanitize_mermaid` (api.py lines 117-156); `if not src: return src`. -/
def sanitize_mermaid (src : String) : String :=
  if src = "" then src else ⟨sanitizeCore src.data⟩

/-! ## Keyword and pattern detectors of `normalize_to_items`
(api.py lines 161-213).  Each `re.search`/`re.findall` is compiled into an
executable scanner with Python's word-boundary (`\b`) semantics: a word
character not preceded (resp. followed) by another word character. -/

/-- No word character follows position `n` in `l` (trailing `\b` after a
phrase ending in a word character). -/
def noWordAfter (n : Nat) (l : List Char) : Bool :=
  match l.drop n with
  | [] => true
  | c :: _ => ¬pyWordChar c

/-- Scan for a `\b`-delimited occurrence of phrase `p` (which starts and
ends with word characters); `prev` says whether the previous character was
a word character. -/
def wsGo (p : List Char) : Bool → List Char → Bool
  | _, [] => false
  | prev, c :: rest =>
    (¬prev ∧ listPre p (c :: rest) ∧ noWordAfter p.length (c :: rest)) ||
      wsGo p (pyWordChar c) rest

/-- `re.search(r"\bPHRASE\b", s)` for a phrase with word characters at both
ends. -/
def wordSearch (phrase s : String) : Bool := wsGo phrase.data false s.data

/-- Scan for an occurrence of `p` with a `\b` before it only (used for
`\bazurerm_storage`, which has no trailing boundary in the pattern). -/
def preBoundGo (p : List Char) : Bool → List Char → Bool
  | _, [] => false
  | prev, c :: rest =>
    (¬prev ∧ listPre p (c :: rest)) || preBoundGo p (pyWordChar c) rest

def preBoundSearch (phrase s : String) : Bool := preBoundGo phrase.data false s.data

/-- `target` occurs at or after this position with no `'\n'` in between
(the `.` of an un-flagged Python regex does not match a newline). -/
def sameLineSeek (target : List Char) : List Char → Bool
  | [] => false
  | c :: rest =>
    if c = '\n' then false
    else listPre target (c :: rest) || sameLineSeek target rest

/-- `re.search(r"\bfront.*back|backend.*front", s)`.  Note the asymmetry of
the source pattern: only the first alternative has a word boundary. -/
def frontBackGo : Bool → List Char → Bool
  | _, [] => false
  | prev, c :: rest =>
    (¬prev ∧ listPre "front".data (c :: rest) ∧
        sameLineSeek "back".data ((c :: rest).drop 5)) ||
    (listPre "backend".data (c :: rest) ∧
        sameLineSeek "front".data ((c :: rest).drop 7)) ||
    frontBackGo (pyWordChar c) rest

def frontBackHit (s : String) : Bool := frontBackGo false s.data

def digitsToNat (ds : List Char) : Nat :=
  ds.foldl (fun n c => 10 * n + (c.toNat - 48)) 0

/-- `re.search(r"(\d+)\s*gb", s)`: first digit run followed by optional
whitespace and `gb`; returns the captured number. -/
def firstGBGo : List Char → Option Nat
  | [] => none
  | c :: rest =>
    if c.isDigit then
      let ds := (c :: rest).takeWhile Char.isDigit
      let after := ((c :: rest).drop ds.length).dropWhile isPySpace
      if listPre "gb".data after then some (digitsToNat ds) else firstGBGo rest
    else firstGBGo rest

def firstGB (s : String) : Option Nat := firstGBGo s.data

/-- Tail of `(\d+)\s*(?:capacity\s*units|cu)\b`. -/
def cuTail (l : List Char) : Bool :=
  (listPre "capacity".data l ∧
    (let l2 := (l.drop 8).dropWhile isPySpace
     listPre "units".data l2 ∧ noWordAfter 5 l2)) ||
  (listPre "cu".data l ∧ noWordAfter 2 l)

/-- `re.search(r"(\d+)\s*(?:capacity\s*units|cu)\b", s)`: captured number. -/
def cuCaptureGo : List Char → Option Nat
  | [] => none
  | c :: rest =>
    if c.isDigit then
      let ds := (c :: rest).takeWhile Char.isDigit
      let after := ((c :: rest).drop ds.length).dropWhile isPySpace
      if cuTail after then some (digitsToNat ds) else cuCaptureGo rest
    else cuCaptureGo rest

def cuCapture (s : String) : Option Nat := cuCaptureGo s.data

/-- Tail of `(\d+)\s*(?:rules|lb\s*rules)` (no trailing boundary). -/
def rulesTail (l : List Char) : Bool :=
  listPre "rules".data l ||
  (listPre "lb".data l ∧ listPre "rules".data ((l.drop 2).dropWhile isPySpace))

/-- `re.search(r"(\d+)\s*(?:rules|lb\s*rules)", s)`: captured number. -/
def rulesCaptureGo : List Char → Option Nat
  | [] => none
  | c :: rest =>
    if c.isDigit then
      let ds := (c :: rest).takeWhile Char.isDigit
      let after := ((c :: rest).drop ds.length).dropWhile isPySpace
      if rulesTail after then some (digitsToNat ds) else rulesCaptureGo rest
    else rulesCaptureGo rest

def rulesCapture (s : String) : Option Nat := rulesCaptureGo s.data

/-- Tail of `(\d+)\s*gb\s*(?:data|processed)`. -/
def dataTail (l : List Char) : Bool :=
  listPre "gb".data l ∧
    (let l2 := (l.drop 2).dropWhile isPySpace
     listPre "data".data l2 || listPre "processed".data l2)

/-- `re.search(r"(\d+)\s*gb\s*(?:data|processed)", s)`: captured number. -/
def dataCaptureGo : List Char → Option Nat
  | [] => none
  | c :: rest =>
    if c.isDigit then
      let ds := (c :: rest).takeWhile Char.isDigit
      let after := ((c :: rest).drop ds.length).dropWhile isPySpace
      if dataTail after then some (digitsToNat ds) else dataCaptureGo rest
    else dataCaptureGo rest

def dataCapture (s : String) : Option Nat := dataCaptureGo s.data

/-- First alternative of
`r"\bvmss\b|\bvm scale set\b|\bvirtual machine\b|\bvm\b"` that matches at
this position; returns its length. -/
def vmMatchLen (prev : Bool) (l : List Char) : Option Nat :=
  if ¬prev ∧ listPre "vmss".data l ∧ noWordAfter 4 l then some 4
  else if ¬prev ∧ listPre "vm scale set".data l ∧ noWordAfter 12 l then some 12
  else if ¬prev ∧ listPre "virtual machine".data l ∧ noWordAfter 15 l then some 15
  else if ¬prev ∧ listPre "vm".data l ∧ noWordAfter 2 l then some 2
  else none

/-- `len(re.findall(r"\bvmss\b|\bvm scale set\b|\bvirtual machine\b|\bvm\b", s))`:
count of non-overlapping matches. -/
def vmHitsGo : Nat → Bool → List Char → Nat
  | 0, _, _ => 0
  | _ + 1, _, [] => 0
  | fuel + 1, prev, c :: rest =>
    match vmMatchLen prev (c :: rest) with
    | some k => 1 + vmHitsGo fuel true ((c :: rest).drop k)
    | none => vmHitsGo fuel (pyWordChar c) rest

def vmHits (s : String) : Nat := vmHitsGo s.data.length false s.data

/-- `re.search(r"\bapp service\b|\bweb app\b", blob)`. -/
def appServiceHit (b : String) : Bool :=
  wordSearch "app service" b || wordSearch "web app" b

/-- `re.search(r"\b(mssql|azure sql|sql database)\b", blob)`. -/
def sqlHit (b : String) : Bool :=
  wordSearch "mssql" b || wordSearch "azure sql" b || wordSearch "sql database" b

/-- `re.search(r"\bstorage account\b|\bblob storage\b|\bazurerm_storage", blob)`. -/
def storageHit (b : String) : Bool :=
  wordSearch "storage account" b || wordSearch "blob storage" b ||
    preBoundSearch "azurerm_storage" b

/-- `re.search(r"\bapplication gateway\b|\bapp gateway\b|\bapp gw\b", blob)`. -/
def appgwHit (b : String) : Bool :=
  wordSearch "application gateway" b || wordSearch "app gateway" b ||
    wordSearch "app gw" b

/-- `re.search(r"\bload balancer\b|\blb\b", blob)`. -/
def lbHit (b : String) : Bool := wordSearch "load balancer" b || wordSearch "lb" b

def redisHit (b : String) : Bool := strContains b "redis"

def aksHit (b : String) : Bool :=
  strContains b "aks" || strContains b "kubernetes service"

def monitorHit (b : String) : Bool :=
  strContains b "application insights" || strContains b "monitor" ||
    strContains b "log analytics"

/-! ## `normalize_to_items` (api.py lines 161-213) -/

/-- Default region (env default `"eastus"`). -/
def DEFAULT_REGION : String := "eastus"

/-- A billable item as produced by `normalize_to_items`; keys that the
detectors only sometimes set are `Option`s. -/
structure NItem where
  cloud : String
  service : String
  sku : String
  qty : Int
  region : String
  size_gb : Option ℚ := none
  capacity_units : Option Int := none
  rules : Option Int := none
  data_gb : Option ℚ := none
deriving Repr, DecidableEq

/-- The local `add` helper: `qty = max(1, int(qty))`. -/
def addItem (cloud service sku : String) (qty : Int) (region : String)
    (size_gb : Option ℚ) : NItem :=
  { cloud, service, sku, qty := max 1 qty, region, size_gb }

/-- `region = region or DEFAULT_REGION` (both `None` and `""` are falsy). -/
def pyRegionOpt : Option String → String
  | none => DEFAULT_REGION
  | some r => if r = "" then DEFAULT_REGION else r

/-- The shared lower-cased scan buffer `f"{ask}\n{diagram}\n{tf}".lower()`. -/
def mkBlob (ask diagram tf : String) : String :=
  lowerStr (ask ++ "\n" ++ diagram ++ "\n" ++ tf)

def segAppService (blob region : String) : List NItem :=
  if appServiceHit blob then
    [addItem "azure" "app_service" "S1" (if frontBackHit blob then 2 else 1)
      region none]
  else []

def segSql (blob region : String) : List NItem :=
  if sqlHit blob then
    [{ addItem "azure" "azure_sql" "S0" 1 region none with
        size_gb := (firstGB blob).map (fun n => (n : ℚ)) }]
  else []

def segVm (blob region : String) : List NItem :=
  if vmHits blob ≠ 0 then
    [addItem "azure" "vm" "B2s" (vmHits blob : Int) region none]
  else []

def segStorage (blob region : String) : List NItem :=
  if storageHit blob then [addItem "azure" "storage" "LRS" 1 region (some 100)]
  else []

/-- Gateway takes precedence over a generic load balancer (`elif`). -/
def segGwLb (blob region : String) : List NItem :=
  if appgwHit blob then
    [{ addItem "azure" "app_gateway" "WAF_v2" 1 region none with
        capacity_units := (cuCapture blob).map (fun n => (n : Int)) }]
  else if lbHit blob then
    [{ addItem "azure" "lb" "Standard" 1 region none with
        rules := (rulesCapture blob).map (fun n => (n : Int)),
        data_gb := (dataCapture blob).map (fun n => (n : ℚ)) }]
  else []

def segRedis (blob region : String) : List NItem :=
  if redisHit blob then [addItem "azure" "redis" "C1" 1 region none] else []

def segAks (blob region : String) : List NItem :=
  if aksHit blob then [addItem "azure" "aks" "standard" 1 region none] else []

def segMonitor (blob region : String) : List NItem :=
  if monitorHit blob then [addItem "azure" "monitor" "LogAnalytics" 1 region none]
  else []

/-- `normalize_to_items(ask, diagram, tf, region)`. -/
def normalize_to_items (ask diagram tf : String) (region : Option String) :
    List NItem :=
  let r := pyRegionOpt region
  let blob := mkBlob ask diagram tf
  segAppService blob r ++ segSql blob r ++ segVm blob r ++ segStorage blob r ++
    segGwLb blob r ++ segRedis blob r ++ segAks blob r ++ segMonitor blob r

/-! ## Configuration constants (env-variable defaults, api.py lines 24-34) -/

def USE_LIVE_AZURE_PRICES : Bool := true
def HOURS_PER_MONTH : ℚ := 730
def DEFAULT_APPGW_CAPACITY_UNITS : Int := 1
def DEFAULT_SQL_COMPUTE_ONLY : Bool := true
def DEFAULT_LB_RULES : Int := 2
def DEFAULT_LB_DATA_GB : ℚ := 100

/-! ## Rational arithmetic standing in for Python floats -/

/-- Floor of a rational as an integer. -/
def ratFloor (q : ℚ) : Int := ⌊q⌋

/-- Round to the nearest integer, ties to even (Python `round`). -/
def roundHalfEven (q : ℚ) : Int :=
  let f := ratFloor q
  let r := q - (f : ℚ)
  if r < 1 / 2 then f
  else if 1 / 2 < r then f + 1
  else if f % 2 = 0 then f else f + 1

/-- Python `round(x, 2)`. -/
def round2 (q : ℚ) : ℚ := (roundHalfEven (q * 100) : ℚ) / 100

/-- Python `round(x, 4)`. -/
def round4 (q : ℚ) : ℚ := (roundHalfEven (q * 10000) : ℚ) / 10000

/-- Python `int(x)` on a float: truncation toward zero. -/
def pyInt (q : ℚ) : Int := if 0 ≤ q then ⌊q⌋ else ⌈q⌉

/-! ## Azure Retail Prices helpers (api.py lines 218-283)

The HTTP fetch `azure_retail_prices_fetch` and the process-wide TTL cache
are external effects; they enter the embedding as an `Env` of functions.
A raised `requests` exception is an `Except.error`, and `cache_get`
results are given per value type. -/

/-- One raw catalog record, with the fields the resolvers read. -/
structure Record where
  meterName : String
  productName : String
  skuName : String
  armRegionName : String
  unitOfMeasure : String
  retailPrice : ℚ
deriving Repr, DecidableEq

/-- `{"rule_hour_monthly": ..., "data_gb_monthly": ...}`. -/
structure LBComps where
  rule_hour_monthly : ℚ
  data_gb_monthly : ℚ
deriving Repr, DecidableEq

/-- `{"base_monthly": ..., "capacity_unit_monthly": ...}`. -/
structure GwComps where
  base_monthly : ℚ
  capacity_unit_monthly : ℚ
deriving Repr, DecidableEq

/-- External effects: the catalog fetch (filter string and item limit), and
the typed views of `cache_get` on the process price cache. -/
structure Env where
  fetch : String → Nat → Except Unit (List Record)
  cacheQ : String → Option ℚ
  cacheLB : String → Option LBComps
  cacheGW : String → Option GwComps

/-- Region variants map (ARM code to Retail friendly names). -/
def REGION_NAME_MAP : List (String × String) :=
  [("eastus", "US East"), ("eastus2", "US East 2"), ("centralus", "US Central"),
   ("westus", "US West"), ("westus2", "US West 2"),
   ("southcentralus", "US South Central"),
   ("northcentralus", "US North Central"), ("westeurope", "EU West"),
   ("northeurope", "EU North")]

/-- Add an element to the variant set, keeping first-insertion order. -/
def dedupAdd (l : List String) (x : String) : List String :=
  if x ∈ l then l else l ++ [x]

/-- `region_variants` (api.py lines 241-253); the Python `set` is modelled
as an insertion-ordered deduplicated list. -/
def region_variants (region : String) : List String :=
  if region = "" then []
  else
    let r := trimStr region
    let v0 := dedupAdd [r] (lowerStr r)
    let v1 := match REGION_NAME_MAP.lookup (lowerStr r) with
      | some m => dedupAdd v0 m
      | none => v0
    let rsp := replaceStr r "-" " "
    let v2 := dedupAdd v1 rsp
    let v3 := dedupAdd v2 (pyTitle rsp)
    if strEnds (lowerStr r) "us" ∧ r.length > 2 then
      dedupAdd v3 (pyTitle (⟨r.data.dropLast.dropLast⟩ : String) ++ " US")
    else v3

/-- `monthly_from_retail` (api.py lines 278-283). -/
def monthly_from_retail (r : Record) : ℚ :=
  if strContains (lowerStr r.unitOfMeasure) "hour" then
    round2 (r.retailPrice * HOURS_PER_MONTH)
  else round2 r.retailPrice

/-- `"hour" in (x.get("unitOfMeasure","").lower())`. -/
def isHourly (r : Record) : Bool := strContains (lowerStr r.unitOfMeasure) "hour"

/-- `hourly = [...]; pool = hourly or items`. -/
def poolHourly (items : List Record) : List Record :=
  let hourly := items.filter isHourly
  if hourly.isEmpty then items else hourly

/-- The running-best update
`if best is None or (m and m < best): best = m`. -/
def bestUpd (best : Option ℚ) (m : ℚ) : Option ℚ :=
  match best with
  | none => some m
  | some b => if m ≠ 0 ∧ m < b then some m else some b

def bestFold (best : Option ℚ) (ms : List ℚ) : Option ℚ := ms.foldl bestUpd best

/-- `List.minimum?` spelled out for the cheapest-match statements. -/
def listMin? (l : List ℚ) : Option ℚ :=
  match l with
  | [] => none
  | a :: rest => some (rest.foldl min a)

/-! ## Price resolvers (api.py lines 286-603)

The OData filter strings are built exactly as the f-strings in the source;
`quo` wraps a value in the single quotes the catalog API expects. -/

def sq : String := ⟨[Char.ofNat 39]⟩

def quo (s : String) : String := sq ++ s ++ sq

/-- `azure_price_for_app_service_sku` (lines 286-324). -/
def appServiceCandidates : List String :=
  ["App Service", "App Service Linux", "Azure App Service", "App Service Plans",
   "Azure App Service Plans"]

def appSvcFilter (svc sku reg : String) : String :=
  "serviceName eq " ++ quo svc ++ " and skuName eq " ++ quo sku ++
    " and armRegionName eq " ++ quo reg ++ " and retailPrice ne 0"

def appSvcAlt (sku reg : String) : String :=
  "contains(productName, " ++ quo "App Service" ++ ") and skuName eq " ++
    quo sku ++ " and armRegionName eq " ++ quo reg ++ " and retailPrice ne 0"

def appSvcQueries (sku region : String) : List (String × String) :=
  (region_variants region).flatMap (fun reg =>
    appServiceCandidates.map (fun svc => (appSvcFilter svc sku reg, appSvcAlt sku reg)))

def appSvcGo (env : Env) : List (String × String) → Option ℚ →
    Except Unit (Option ℚ)
  | [], best => .ok best
  | (f, a) :: fs, best =>
    match env.fetch f 60 with
    | .error e => .error e
    | .ok items0 =>
      match (if items0.isEmpty then env.fetch a 60 else .ok items0) with
      | .error e => .error e
      | .ok items =>
        appSvcGo env fs (bestFold best ((poolHourly items).map monthly_from_retail))

def azure_price_for_app_service_sku (env : Env) (sku region : String) :
    Except Unit (Option ℚ) :=
  match env.cacheQ ("az.appservice." ++ region ++ "." ++ sku) with
  | some c => .ok (some c)
  | none => appSvcGo env (appSvcQueries sku region) none

/-- `azure_price_for_vm_size` (lines 326-350). -/
def vmFilter (sku reg : String) : String :=
  "serviceName eq " ++ quo "Virtual Machines" ++ " and skuName eq " ++ quo sku ++
    " and armRegionName eq " ++ quo reg ++ " and retailPrice ne 0"

def vmSkuCandidates (size : String) : List String :=
  [size, replaceStr size "_" " ", replaceStr size "v" " v"]

def vmQueries (size region : String) : List String :=
  (region_variants region).flatMap (fun reg =>
    (vmSkuCandidates size).map (fun sku => vmFilter sku reg))

def vmKey (size region : String) : String := "az.vm." ++ region ++ "." ++ size

def vmGo (env : Env) : List String → Option ℚ → Except Unit (Option ℚ)
  | [], best => .ok best
  | f :: fs, best =>
    match env.fetch f 80 with
    | .error e => .error e
    | .ok items =>
      vmGo env fs (bestFold best ((poolHourly items).map monthly_from_retail))

def azure_price_for_vm_size (env : Env) (size region : String) :
    Except Unit (Option ℚ) :=
  match env.cacheQ (vmKey size region) with
  | some c => .ok (some c)
  | none => vmGo env (vmQueries size region) none

/-- The "resulting monthly price" of every candidate record the VM resolver
considers, in scan order: per query, the hourly-preferred pool of the
records the fetch returned. -/
def vmCollect (env : Env) : List String → Except Unit (List ℚ)
  | [] => .ok []
  | f :: fs =>
    match env.fetch f 80 with
    | .error e => .error e
    | .ok items =>
      match vmCollect env fs with
      | .error e => .error e
      | .ok rest => .ok ((poolHourly items).map monthly_from_retail ++ rest)

def vmCandidateMonthlies (env : Env) (size region : String) :
    Except Unit (List ℚ) :=
  vmCollect env (vmQueries size region)

/-- `azure_price_for_sql` (lines 352-404). -/
def sqlBadWords : List String :=
  ["backup", "storage", "io", "data processed", "per gb", "gb-month"]

def sqlGoodWords : List String := ["dtu", "vcore", "compute"]

def is_compute_meter (sku : String) (r : Record) : Bool :=
  let meter := lowerStr r.meterName
  if sqlBadWords.any (fun b => strContains meter b) then false
  else sqlGoodWords.any (fun g => strContains meter g) ||
    strContains meter (lowerStr sku)

def sqlFlt1 (sku reg : String) : String :=
  "serviceName eq " ++ quo "SQL Database" ++ " and skuName eq " ++ quo sku ++
    " and armRegionName eq " ++ quo reg ++ " and retailPrice ne 0"

def sqlFlt2 (sku reg : String) : String :=
  "contains(productName, " ++ quo "SQL Database" ++ ") and skuName eq " ++
    quo sku ++ " and armRegionName eq " ++ quo reg ++ " and retailPrice ne 0"

def sqlFlt3 (sku reg : String) : String :=
  "serviceName eq " ++ quo "SQL Database" ++ " and contains(meterName, " ++
    quo sku ++ ") and armRegionName eq " ++ quo reg ++ " and retailPrice ne 0"

def sqlGo (env : Env) (sku : String) : List String → Option ℚ →
    Except Unit (Option ℚ)
  | [], best => .ok best
  | reg :: regs, best =>
    match env.fetch (sqlFlt1 sku reg) 200 with
    | .error e => .error e
    | .ok items0 =>
      match (if items0.isEmpty then env.fetch (sqlFlt2 sku reg) 200 else .ok items0) with
      | .error e => .error e
      | .ok items1 =>
        match (if items1.isEmpty then env.fetch (sqlFlt3 sku reg) 200 else .ok items1) with
        | .error e => .error e
        | .ok items =>
          let pool := poolHourly items
          let pool := if DEFAULT_SQL_COMPUTE_ONLY then
              pool.filter (is_compute_meter sku)
            else pool
          sqlGo env sku regs (bestFold best (pool.map monthly_from_retail))

def azure_price_for_sql (env : Env) (sku region : String) :
    Except Unit (Option ℚ) :=
  match env.cacheQ ("az.sql." ++ region ++ "." ++ sku) with
  | some c => .ok (some c)
  | none => sqlGo env sku (region_variants region) none

/-- `azure_price_for_storage_lrs_per_gb` (lines 406-424). -/
def storageFlt (reg : String) : String :=
  "serviceName eq " ++ quo "Storage" ++ " and armRegionName eq " ++ quo reg ++
    " and contains(skuName, " ++ quo "LRS" ++ ") and retailPrice ne 0"

def storageGo (env : Env) : List String → Option ℚ → Except Unit (Option ℚ)
  | [], best => .ok best
  | reg :: regs, best =>
    match env.fetch (storageFlt reg) 80 with
    | .error e => .error e
    | .ok items => storageGo env regs (bestFold best (items.map monthly_from_retail))

def azure_price_for_storage_lrs_per_gb (env : Env) (region : String) :
    Except Unit (Option ℚ) :=
  match env.cacheQ ("az.storage.lrs." ++ region) with
  | some c => .ok (some c)
  | none => storageGo env (region_variants region) none

/-- `azure_price_for_lb_components` (lines 426-499). -/
def lbFlt (reg : String) : String :=
  "serviceName eq " ++ quo "Load Balancer" ++ " and armRegionName eq " ++
    quo reg ++ " and retailPrice ne 0"

def lbAlt (reg : String) : String :=
  "contains(productName, " ++ quo "Load Balancer" ++ ") and armRegionName eq " ++
    quo reg ++ " and retailPrice ne 0"

def is_rule_meter (r : Record) : Bool :=
  strContains (lowerStr r.meterName) "rule" ∧
    strContains (lowerStr r.unitOfMeasure) "hour"

def is_data_meter (r : Record) : Bool :=
  (strContains (lowerStr r.meterName) "data" ||
   strContains (lowerStr r.meterName) "processed" ||
   strContains (lowerStr r.meterName) "data path") &&
    strContains (lowerStr r.unitOfMeasure) "gb"

def lbFoldRule (br : Option ℚ) (items : List Record) : Option ℚ :=
  bestFold br (((items.filter isHourly).filter is_rule_meter).map monthly_from_retail)

def lbFoldData (bd : Option ℚ) (items : List Record) : Option ℚ :=
  bestFold bd ((items.filter is_data_meter).map monthly_from_retail)

def lbGo (env : Env) : List String → Option ℚ → Option ℚ →
    Except Unit (Option ℚ × Option ℚ)
  | [], br, bd => .ok (br, bd)
  | reg :: regs, br, bd =>
    match env.fetch (lbFlt reg) 200 with
    | .error e => .error e
    | .ok items =>
      let br := lbFoldRule br items
      let bd := lbFoldData bd items
      if br = none ∨ bd = none then
        match env.fetch (lbAlt reg) 200 with
        | .error e => .error e
        | .ok items2 => lbGo env regs (lbFoldRule br items2) (lbFoldData bd items2)
      else lbGo env regs br bd

def azure_price_for_lb_components (env : Env) (region : String) :
    Except Unit (Option LBComps) :=
  match env.cacheLB ("az.lb.standard.components." ++ region) with
  | some c => .ok (some c)
  | none =>
    match lbGo env (region_variants region) none none with
    | .error e => .error e
    | .ok (br, bd) =>
      if br = none ∧ bd = none then .ok none
      else .ok (some ⟨round4 (br.getD 0), round4 (bd.getD 0)⟩)

/-- `azure_price_for_appgw_wafv2_components` (lines 501-566). -/
def gwFlt (reg : String) : String :=
  "serviceName eq " ++ quo "Application Gateway" ++ " and armRegionName eq " ++
    quo reg ++ " and retailPrice ne 0"

def gwAlt (reg : String) : String :=
  "contains(productName, " ++ quo "Application Gateway" ++
    ") and armRegionName eq " ++ quo reg ++ " and retailPrice ne 0"

def is_base_meter (r : Record) : Bool :=
  if strContains (lowerStr r.unitOfMeasure) "gb" then false
  else
    (strContains (lowerStr r.meterName) "gateway" ||
     strContains (lowerStr r.meterName) "waf v2" ||
     strContains (lowerStr r.meterName) "app gateway") &&
      ¬strContains (lowerStr r.meterName) "capacity"

def is_cu_meter (r : Record) : Bool :=
  strContains (lowerStr r.meterName) "capacity unit" ∧
    strContains (lowerStr r.unitOfMeasure) "hour"

def gwFoldBase (bb : Option ℚ) (items : List Record) : Option ℚ :=
  bestFold bb (((items.filter isHourly).filter is_base_meter).map monthly_from_retail)

/-- `elif is_cu(it)`: only records not already classified as base meters. -/
def gwFoldCu (bc : Option ℚ) (items : List Record) : Option ℚ :=
  bestFold bc (((items.filter isHourly).filter
    (fun r => ¬is_base_meter r ∧ is_cu_meter r)).map monthly_from_retail)

def gwGo (env : Env) : List String → Option ℚ → Option ℚ →
    Except Unit (Option ℚ × Option ℚ)
  | [], bb, bc => .ok (bb, bc)
  | reg :: regs, bb, bc =>
    match env.fetch (gwFlt reg) 200 with
    | .error e => .error e
    | .ok items =>
      let bb := gwFoldBase bb items
      let bc := gwFoldCu bc items
      if bb = none ∨ bc = none then
        match env.fetch (gwAlt reg) 200 with
        | .error e => .error e
        | .ok items2 => gwGo env regs (gwFoldBase bb items2) (gwFoldCu bc items2)
      else gwGo env regs bb bc

def azure_price_for_appgw_wafv2_components (env : Env) (region : String) :
    Except Unit (Option GwComps) :=
  match env.cacheGW ("az.appgw.wafv2.components." ++ region) with
  | some c => .ok (some c)
  | none =>
    match gwGo env (region_variants region) none none with
    | .error e => .error e
    | .ok (bb, bc) =>
      if bb = none ∧ bc = none then .ok none
      else .ok (some ⟨round2 (bb.getD 0), round2 (bc.getD 0)⟩)

/-- `azure_price_for_redis` (lines 568-586). -/
def redisFlt (sku reg : String) : String :=
  "serviceName eq " ++ quo "Azure Cache for Redis" ++ " and skuName eq " ++
    quo sku ++ " and armRegionName eq " ++ quo reg ++ " and retailPrice ne 0"

def redisGo (env : Env) (sku : String) : List String → Option ℚ →
    Except Unit (Option ℚ)
  | [], best => .ok best
  | reg :: regs, best =>
    match env.fetch (redisFlt sku reg) 60 with
    | .error e => .error e
    | .ok items => redisGo env sku regs (bestFold best (items.map monthly_from_retail))

def azure_price_for_redis (env : Env) (sku region : String) :
    Except Unit (Option ℚ) :=
  match env.cacheQ ("az.redis." ++ region ++ "." ++ sku) with
  | some c => .ok (some c)
  | none => redisGo env sku (region_variants region) none

/-- `azure_price_for_log_analytics` (lines 588-603). -/
def laFlt (reg : String) : String :=
  "serviceName eq " ++ quo "Log Analytics" ++ " and armRegionName eq " ++
    quo reg ++ " and retailPrice ne 0"

def laGo (env : Env) : List String → Option ℚ → Except Unit (Option ℚ)
  | [], best => .ok best
  | reg :: regs, best =>
    match env.fetch (laFlt reg) 60 with
    | .error e => .error e
    | .ok items => laGo env regs (bestFold best (items.map monthly_from_retail))

def azure_price_for_log_analytics (env : Env) (region : String) :
    Except Unit (Option ℚ) :=
  match env.cacheQ ("az.loganalytics." ++ region) with
  | some c => .ok (some c)
  | none => laGo env (region_variants region) none

/-! ## Pricing engine (`price_items`, api.py lines 608-701)

An item passed to `price_items` is a dict whose keys may be absent;
absent string keys default to `""` via `.get(k, "")`, the rest are
`Option`s.  Python `or`-defaulting treats `None`, `0` and `""` alike as
falsy, which the `py*` helpers reproduce. -/

structure PItem where
  cloud : String := ""
  service : String := ""
  sku : String := ""
  qty : Option Int := none
  region : Option String := none
  size_gb : Option ℚ := none
  hours : Option ℚ := none
  capacity_units : Option Int := none
  rules : Option Int := none
  data_gb : Option ℚ := none
deriving Repr, DecidableEq

/-- `int(it.get("qty", 1) or 1)`. -/
def pyQty : Option Int → Int
  | none => 1
  | some q => if q = 0 then 1 else q

/-- `it.get("region") or DEFAULT_REGION`. -/
def pyRegion : Option String → String
  | none => DEFAULT_REGION
  | some r => if r = "" then DEFAULT_REGION else r

/-- `float(it.get("size_gb", 0) or 0)`. -/
def pySize : Option ℚ → ℚ
  | none => 0
  | some s => s

/-- `float(it.get("hours", HOURS_PER_MONTH) or HOURS_PER_MONTH)`: an
explicit `0` is falsy and falls back to the full-month constant. -/
def pyHours : Option ℚ → ℚ
  | none => HOURS_PER_MONTH
  | some h => if h = 0 then HOURS_PER_MONTH else h

/-- `int(o or d)` for an optional integer attribute. -/
def pyOrInt (o : Option Int) (d : Int) : Int :=
  match o with
  | none => d
  | some n => if n = 0 then d else n

/-- `float(o or d)` for an optional float attribute. -/
def pyOrRat (o : Option ℚ) (d : ℚ) : ℚ :=
  match o with
  | none => d
  | some x => if x = 0 then d else x

/-- Truthiness of `it.get(k)` for an optional integer. -/
def pyTruthyInt : Option Int → Bool
  | none => false
  | some n => n ≠ 0

/-- Truthiness of `it.get(k)` for an optional float. -/
def pyTruthyRat : Option ℚ → Bool
  | none => false
  | some x => x ≠ 0

/-- `int(it.get("capacity_units") or it.get("size_gb") or
DEFAULT_APPGW_CAPACITY_UNITS)`. -/
def gwCapacity (it : PItem) : Int :=
  match it.capacity_units with
  | some c =>
    if c ≠ 0 then c
    else
      match it.size_gb with
      | some g => if g ≠ 0 then pyInt g else DEFAULT_APPGW_CAPACITY_UNITS
      | none => DEFAULT_APPGW_CAPACITY_UNITS
  | none =>
    match it.size_gb with
    | some g => if g ≠ 0 then pyInt g else DEFAULT_APPGW_CAPACITY_UNITS
    | none => DEFAULT_APPGW_CAPACITY_UNITS

/-- Diagnostic note strings (the f-strings of `price_items`). -/
def noPriceNote (cloud service sku region : String) : String :=
  "No price found for " ++ cloud ++ ":" ++ service ++ ":" ++ sku ++ " in " ++
    region ++ " (set $0)."

/-- The `except` note; the interpolated exception text is not modelled. -/
def lookupFailNote (cloud service sku region : String) : String :=
  "Lookup failed for " ++ cloud ++ ":" ++ service ++ ":" ++ sku ++ " in " ++
    region ++ ": "

def gwDefaultNote (cu : Int) : String :=
  "App Gateway capacity units defaulted to " ++ toString cu ++ "/h."

def lbRulesNote (rules : Int) : String :=
  "LB rules defaulted to " ++ toString rules ++ "/h."

def lbDataNote (data_gb : ℚ) : String :=
  "LB data processed defaulted to " ++ toString data_gb ++ " GB/mo."

def aksNote : String :=
  "AKS control plane free; worker node VM costs not included."

/-- The body of the `try` block of `price_items`: dispatch on the service
kind, returning the resolved unit monthly price (or `none`) together with
the notes that branch appends. -/
def tryResolve (env : Env) (service sku region : String) (size_gb : ℚ)
    (it : PItem) : Except Unit (Option ℚ × List String) :=
  if service = "app_service" then
    match azure_price_for_app_service_sku env sku region with
    | .error e => .error e
    | .ok u => .ok (u, [])
  else if service = "vm" then
    match azure_price_for_vm_size env sku region with
    | .error e => .error e
    | .ok u => .ok (u, [])
  else if service = "azure_sql" then
    match azure_price_for_sql env sku region with
    | .error e => .error e
    | .ok u => .ok (u, [])
  else if service = "storage" then
    match azure_price_for_storage_lrs_per_gb env region with
    | .error e => .error e
    | .ok (some p) => .ok (some (p * (if size_gb > 0 then size_gb else 100)), [])
    | .ok none => .ok (none, [])
  else if service = "lb" then
    match azure_price_for_lb_components env region with
    | .error e => .error e
    | .ok (some comps) =>
      let rules := pyOrInt it.rules DEFAULT_LB_RULES
      let data_gb := pyOrRat it.data_gb DEFAULT_LB_DATA_GB
      let u := (rules : ℚ) * comps.rule_hour_monthly + data_gb * comps.data_gb_monthly
      .ok (some u,
        (if pyTruthyInt it.rules then [] else [lbRulesNote rules]) ++
        (if pyTruthyRat it.data_gb then [] else [lbDataNote data_gb]))
    | .ok none => .ok (none, [])
  else if service = "app_gateway" then
    match azure_price_for_appgw_wafv2_components env region with
    | .error e => .error e
    | .ok (some comps) =>
      let cu := gwCapacity it
      let u := comps.base_monthly + (cu : ℚ) * comps.capacity_unit_monthly
      .ok (some u,
        if ¬pyTruthyInt it.capacity_units ∧ ¬pyTruthyRat it.size_gb then
          [gwDefaultNote cu]
        else [])
    | .ok none => .ok (none, [])
  else if service = "redis" then
    match azure_price_for_redis env sku region with
    | .error e => .error e
    | .ok u => .ok (u, [])
  else if service = "monitor" then
    match azure_price_for_log_analytics env region with
    | .error e => .error e
    | .ok u => .ok (u, [])
  else if service = "aks" then .ok (some 0, [aksNote])
  else .ok (none, [])

/-- The resolution step of one iteration of `price_items`: `unit_monthly`
stays `None` outside the Azure/live-prices branch, and a raised lookup
exception is caught and converted to a note. -/
def resolution (env : Env) (it : PItem) : Except Unit (Option ℚ × List String) :=
  if lowerStr it.cloud = "azure" ∧ USE_LIVE_AZURE_PRICES = true then
    tryResolve env (lowerStr it.service) it.sku (pyRegion it.region)
      (pySize it.size_gb) it
  else .ok (none, [])

/-- The unit monthly price `price_items` ends up with for an item before
the `None`-to-zero fallback: `none` when resolution found nothing or the
lookup raised. -/
def resolvedPrice (env : Env) (it : PItem) : Option ℚ :=
  match resolution env it with
  | .ok (u, _) => u
  | .error _ => none

/-- One output line of `price_items`. -/
structure Line where
  cloud : String
  service : String
  sku : String
  qty : Int
  region : String
  size_gb : Option ℚ
  hours : Option ℚ
  unit_monthly : ℚ
  monthly : ℚ
  capacity_units : Option Int
  rules : Option Int
  data_gb : Option ℚ
deriving Repr, DecidableEq

/-- One loop iteration of `price_items`: the priced line and the notes the
iteration appends. -/
def price_one (env : Env) (it : PItem) : Line × List String :=
  let cloud := lowerStr it.cloud
  let service := lowerStr it.service
  let sku := it.sku
  let qty := pyQty it.qty
  let region := pyRegion it.region
  let size_gb := pySize it.size_gb
  let hours := pyHours it.hours
  let step1 : Option ℚ × List String :=
    match resolution env it with
    | .ok r => r
    | .error _ => (none, [lookupFailNote cloud service sku region])
  let step2 : ℚ × List String :=
    match step1.1 with
    | none => (0, step1.2 ++ [noPriceNote cloud service sku region])
    | some u => (u, step1.2)
  let unit_monthly := step2.1
  let scaled :=
    if hours ≠ 0 ∧ hours ≠ HOURS_PER_MONTH ∧ unit_monthly > 0 then
      unit_monthly * (hours / HOURS_PER_MONTH)
    else unit_monthly
  let monthly := round2 (scaled * (qty : ℚ))
  ({ cloud, service, sku, qty, region,
     size_gb := if size_gb > 0 then some size_gb else none,
     hours := if hours ≠ 0 ∧ hours ≠ HOURS_PER_MONTH then some hours else none,
     unit_monthly := round2 unit_monthly,
     monthly,
     capacity_units := if service = "app_gateway" then some (gwCapacity it) else none,
     rules := if service = "lb" then some (pyOrInt it.rules DEFAULT_LB_RULES) else none,
     data_gb := if service = "lb" then some (pyOrRat it.data_gb DEFAULT_LB_DATA_GB)
       else none },
   step2.2)

/-- The estimate object `price_items` returns. -/
structure Estimate where
  currency : String
  total_estimate : ℚ
  method : String
  notes : List String
  items : List Line
deriving Repr, DecidableEq

/-- `price_items(items)`: the loop is a map over the items, notes are
accumulated in iteration order, the total is the rounded sum of the
per-line monthly figures. -/
def price_items (env : Env) (items : List PItem) : Estimate :=
  let rs := items.map (price_one env)
  { currency := "USD"
    total_estimate := round2 ((rs.map (fun r => r.1.monthly)).sum)
    method := if USE_LIVE_AZURE_PRICES then "azure-retail" else "offline"
    notes := rs.flatMap Prod.snd
    items := rs.map Prod.fst }

/-! ## Claim-side notions -/

/-- The repository's notion of beginning with a graph-direction header
(api.py line 751): `diagram.lower().startswith("graph ")`. -/
def startsWithGraphHeader (s : String) : Bool := strStarts (lowerStr s) "graph "

/-- The spec's "ends with exactly one newline". -/
def endsWithExactlyOneNL (s : String) : Bool :=
  (s.data.getLast? == some '\n') && (s.data.dropLast.getLast? != some '\n')

/-- The merge key of §3 of the spec: (provider, serviceKind, sku, region). -/
def mergeKey (x : NItem) : String × String × String × String :=
  (x.cloud, x.service, x.sku, x.region)

/-! ## Theorems -/

/-- C1: the sanitizer is not idempotent.  On `"A[x-,-y]"` the first pass
strips the commas of the bracketed label, creating the edge-operator
substring `--`; the second pass then classifies the line as an edge and
appends a terminator, so the two outputs differ. -/
theorem sanitize_not_idempotent :
    sanitize_mermaid "A[x-,-y]" = "A[x--y]\n" ∧
    sanitize_mermaid (sanitize_mermaid "A[x-,-y]") = "A[x--y];\n" ∧
    sanitize_mermaid (sanitize_mermaid "A[x-,-y]") ≠ sanitize_mermaid "A[x-,-y]" := by
  decide

set_option maxHeartbeats 2000000 in
/-- C4: on the spec's example input with the default region, the normalizer
yields an app-service item with quantity 2 and a managed-SQL item with a
50 GB size attribute, and nothing else. -/
theorem normalize_webapp_mssql_example :
    normalize_to_items "web app with frontend and backend, mssql database, 50 GB"
        "" "" none =
      [{ cloud := "azure", service := "app_service", sku := "S1", qty := 2,
         region := "eastus" },
       { cloud := "azure", service := "azure_sql", sku := "S0", qty := 1,
         region := "eastus", size_gb := some 50 }] := by
  decide

/-- C7 counterexample: the input `"A --> B"` does not begin with a
graph-direction header and its sanitized output does not either, so the
sanitizer prepends no default header. -/
theorem sanitize_no_header_cex :
    startsWithGraphHeader "A --> B" = false ∧
    startsWithGraphHeader (sanitize_mermaid "A --> B") = false := by decide

/-- C7 amended: the sanitizer performs no header normalization.  An input
without a graph-direction header sanitizes to the same text with only the
other repairs applied (here just the edge terminator), still without a
header; header presence is enforced upstream by the endpoint, which
rejects raw diagrams not starting with `graph `. -/
theorem sanitize_no_header_normalization :
    sanitize_mermaid "A --> B" = "A --> B;\n" ∧
    startsWithGraphHeader (sanitize_mermaid "A --> B") = false := by decide

/-- C8 counterexample: on `"a\n\n\n"` the sanitized output is `"a\n\n"`,
which ends with two newlines, not exactly one. -/
theorem sanitize_trailing_newline_cex :
    sanitize_mermaid "a\n\n\n" = "a\n\n" ∧
    endsWithExactlyOneNL (sanitize_mermaid "a\n\n\n") = false := by decide

lemma ensureNL_getLast (l : List Char) : (ensureNL l).getLast? = some '\n' := by
  unfold ensureNL
  split
  · next h => exact h
  · exact List.getLast?_append_cons l '\n' []

lemma sanitizeCore_getLast (l : List Char) :
    (sanitizeCore l).getLast? = some '\n' :=
  ensureNL_getLast _

/-- C8 amended: for every nonempty input the sanitized output ends with a
newline (at least one; the empty input is returned unchanged and trailing
blank lines can leave more than one). -/
theorem sanitize_ends_with_newline (src : String) (h : src ≠ "") :
    (sanitize_mermaid src).data.getLast? = some '\n' := by
  rw [sanitize_mermaid, if_neg h]
  with_reducible exact sanitizeCore_getLast _

/-- C8 amended, witness at `"a"`. -/
theorem sanitize_ends_with_newline_witness :
    ("a" : String) ≠ "" ∧ (sanitize_mermaid "a").data.getLast? = some '\n' :=
  ⟨by decide, sanitize_ends_with_newline "a" (by decide)⟩

/-! ### C2/C3: the detector segments emit pairwise distinct service kinds -/

lemma segAppService_service (b r : String) :
    ∀ x ∈ segAppService b r, x.service = "app_service" := by
  unfold segAppService; split <;> simp [addItem]

lemma segSql_service (b r : String) : ∀ x ∈ segSql b r, x.service = "azure_sql" := by
  unfold segSql; split <;> simp [addItem]

lemma segVm_service (b r : String) : ∀ x ∈ segVm b r, x.service = "vm" := by
  unfold segVm; split <;> simp [addItem]

lemma segStorage_service (b r : String) : ∀ x ∈ segStorage b r, x.service = "storage" := by
  unfold segStorage; split <;> simp [addItem]

lemma segGwLb_service (b r : String) :
    ∀ x ∈ segGwLb b r, x.service = "app_gateway" ∨ x.service = "lb" := by
  unfold segGwLb; split
  · simp [addItem]
  · split <;> simp [addItem]

lemma segRedis_service (b r : String) : ∀ x ∈ segRedis b r, x.service = "redis" := by
  unfold segRedis; split <;> simp [addItem]

lemma segAks_service (b r : String) : ∀ x ∈ segAks b r, x.service = "aks" := by
  unfold segAks; split <;> simp [addItem]

lemma segMonitor_service (b r : String) : ∀ x ∈ segMonitor b r, x.service = "monitor" := by
  unfold segMonitor; split <;> simp [addItem]

lemma segAppService_sub (b r : String) :
    List.Sublist ((segAppService b r).map NItem.service) ["app_service"] := by
  unfold segAppService; split <;> simp [addItem]

lemma segSql_sub (b r : String) :
    List.Sublist ((segSql b r).map NItem.service) ["azure_sql"] := by
  unfold segSql; split <;> simp [addItem]

lemma segVm_sub (b r : String) : List.Sublist ((segVm b r).map NItem.service) ["vm"] := by
  unfold segVm; split <;> simp [addItem]

lemma segStorage_sub (b r : String) :
    List.Sublist ((segStorage b r).map NItem.service) ["storage"] := by
  unfold segStorage; split <;> simp [addItem]

lemma segGwLb_sub (b r : String) :
    List.Sublist ((segGwLb b r).map NItem.service) ["app_gateway", "lb"] := by
  unfold segGwLb; split
  · simp [addItem]
  · split <;> simp [addItem]

lemma segRedis_sub (b r : String) : List.Sublist ((segRedis b r).map NItem.service) ["redis"] := by
  unfold segRedis; split <;> simp [addItem]

lemma segAks_sub (b r : String) : List.Sublist ((segAks b r).map NItem.service) ["aks"] := by
  unfold segAks; split <;> simp [addItem]

lemma segMonitor_sub (b r : String) :
    List.Sublist ((segMonitor b r).map NItem.service) ["monitor"] := by
  unfold segMonitor; split <;> simp [addItem]

/-- C2: no two items of a `normalize_to_items` output share the merge key
(provider, serviceKind, sku, region): every detector contributes at most
one item and the detectors emit pairwise distinct service kinds, so the
output is duplicate-free by construction. -/
theorem normalize_merge_key_invariant (ask diagram tf : String)
    (region : Option String) :
    (normalize_to_items ask diagram tf region).Pairwise
      (fun a b => mergeKey a ≠ mergeKey b) := by
  have hsub : List.Sublist
      ((normalize_to_items ask diagram tf region).map NItem.service)
      ["app_service", "azure_sql", "vm", "storage", "app_gateway", "lb",
       "redis", "aks", "monitor"] := by
    unfold normalize_to_items
    simp only [List.map_append]
    exact ((((((((segAppService_sub _ _).append (segSql_sub _ _)).append
      (segVm_sub _ _)).append (segStorage_sub _ _)).append
        (segGwLb_sub _ _)).append (segRedis_sub _ _)).append
          (segAks_sub _ _)).append (segMonitor_sub _ _))
  have hnodup : ((normalize_to_items ask diagram tf region).map NItem.service).Nodup :=
    List.Nodup.sublist hsub (by decide)
  rw [List.Nodup, List.pairwise_map] at hnodup
  exact hnodup.imp (fun hne hk => hne (congrArg (fun t => t.2.1) hk))

lemma countP_of_service_ne {s : String} {l : List NItem}
    (h : ∀ x ∈ l, x.service ≠ s) :
    l.countP (fun x => x.service == s) = 0 := by
  apply List.countP_eq_zero.mpr
  intro a ha
  simpa using h a ha

/-- C3: when the scan buffer contains both an application-gateway keyword
and a load-balancer keyword, the normalizer emits exactly one gateway item
and no generic load-balancer item (the gateway branch shadows the
load-balancer branch). -/
theorem normalize_gateway_excludes_lb (ask diagram tf : String)
    (region : Option String)
    (hgw : appgwHit (mkBlob ask diagram tf) = true)
    (_hlb : lbHit (mkBlob ask diagram tf) = true) :
    ((normalize_to_items ask diagram tf region).countP
        (fun x => x.service == "app_gateway") = 1) ∧
    ((normalize_to_items ask diagram tf region).countP
        (fun x => x.service == "lb") = 0) := by
  have hGg : (segGwLb (mkBlob ask diagram tf) (pyRegionOpt region)).countP
      (fun x => x.service == "app_gateway") = 1 := by
    unfold segGwLb; rw [if_pos hgw]; simp [addItem]
  have hGl : (segGwLb (mkBlob ask diagram tf) (pyRegionOpt region)).countP
      (fun x => x.service == "lb") = 0 := by
    unfold segGwLb; rw [if_pos hgw]; simp [addItem]
  have hAg := countP_of_service_ne
    (l := segAppService (mkBlob ask diagram tf) (pyRegionOpt region)) (s := "app_gateway")
    (fun x hx => by rw [segAppService_service _ _ x hx]; decide)
  have hAl := countP_of_service_ne
    (l := segAppService (mkBlob ask diagram tf) (pyRegionOpt region)) (s := "lb")
    (fun x hx => by rw [segAppService_service _ _ x hx]; decide)
  have hSg := countP_of_service_ne
    (l := segSql (mkBlob ask diagram tf) (pyRegionOpt region)) (s := "app_gateway")
    (fun x hx => by rw [segSql_service _ _ x hx]; decide)
  have hSl := countP_of_service_ne
    (l := segSql (mkBlob ask diagram tf) (pyRegionOpt region)) (s := "lb")
    (fun x hx => by rw [segSql_service _ _ x hx]; decide)
  have hVg := countP_of_service_ne
    (l := segVm (mkBlob ask diagram tf) (pyRegionOpt region)) (s := "app_gateway")
    (fun x hx => by rw [segVm_service _ _ x hx]; decide)
  have hVl := countP_of_service_ne
    (l := segVm (mkBlob ask diagram tf) (pyRegionOpt region)) (s := "lb")
    (fun x hx => by rw [segVm_service _ _ x hx]; decide)
  have hTg := countP_of_service_ne
    (l := segStorage (mkBlob ask diagram tf) (pyRegionOpt region)) (s := "app_gateway")
    (fun x hx => by rw [segStorage_service _ _ x hx]; decide)
  have hTl := countP_of_service_ne
    (l := segStorage (mkBlob ask diagram tf) (pyRegionOpt region)) (s := "lb")
    (fun x hx => by rw [segStorage_service _ _ x hx]; decide)
  have hRg := countP_of_service_ne
    (l := segRedis (mkBlob ask diagram tf) (pyRegionOpt region)) (s := "app_gateway")
    (fun x hx => by rw [segRedis_service _ _ x hx]; decide)
  have hRl := countP_of_service_ne
    (l := segRedis (mkBlob ask diagram tf) (pyRegionOpt region)) (s := "lb")
    (fun x hx => by rw [segRedis_service _ _ x hx]; decide)
  have hKg := countP_of_service_ne
    (l := segAks (mkBlob ask diagram tf) (pyRegionOpt region)) (s := "app_gateway")
    (fun x hx => by rw [segAks_service _ _ x hx]; decide)
  have hKl := countP_of_service_ne
    (l := segAks (mkBlob ask diagram tf) (pyRegionOpt region)) (s := "lb")
    (fun x hx => by rw [segAks_service _ _ x hx]; decide)
  have hMg := countP_of_service_ne
    (l := segMonitor (mkBlob ask diagram tf) (pyRegionOpt region)) (s := "app_gateway")
    (fun x hx => by rw [segMonitor_service _ _ x hx]; decide)
  have hMl := countP_of_service_ne
    (l := segMonitor (mkBlob ask diagram tf) (pyRegionOpt region)) (s := "lb")
    (fun x hx => by rw [segMonitor_service _ _ x hx]; decide)
  unfold normalize_to_items
  simp only [List.countP_append]
  constructor
  · rw [hAg, hSg, hVg, hTg, hGg, hRg, hKg, hMg]
  · rw [hAl, hSl, hVl, hTl, hGl, hRl, hKl, hMl]

/-- C3 witness: a concrete input containing both keyword families. -/
theorem normalize_gateway_excludes_lb_witness :
    ((normalize_to_items "application gateway and load balancer" "" "" none).countP
        (fun x => x.service == "app_gateway") = 1) ∧
    ((normalize_to_items "application gateway and load balancer" "" "" none).countP
        (fun x => x.service == "lb") = 0) :=
  normalize_gateway_excludes_lb "application gateway and load balancer" "" "" none
    (by decide) (by decide)

/-! ### C5/C6/C10: pricing-aggregator lemmas -/

lemma round2_zero : round2 0 = 0 := by norm_num [round2, roundHalfEven, ratFloor]

/-- The unit price and the appended notes of a line whose resolution fails
entirely (`resolvedPrice = none`). -/
lemma price_one_fail (env : Env) (it : PItem)
    (hf : resolvedPrice env it = none) :
    (price_one env it).1.unit_monthly = 0 ∧
    noPriceNote (lowerStr it.cloud) (lowerStr it.service) it.sku
      (pyRegion it.region) ∈ (price_one env it).2 := by
  unfold resolvedPrice at hf
  cases hres : resolution env it with
  | error e =>
    constructor <;> simp [price_one, hres, round2_zero]
  | ok r =>
    rw [hres] at hf
    obtain ⟨u, ns⟩ := r
    simp only at hf
    subst hf
    constructor <;> simp [price_one, hres, round2_zero]

/-- C5: when price resolution fails entirely for an item (no candidates
after all fallbacks, or a raised lookup), the aggregator sets that item's
unit price to zero, appends the "No price found" note, and still returns
one line per input item — `price_items` is total, so it never raises for a
per-item pricing failure. -/
theorem price_items_not_found_safe (env : Env) (items : List PItem) (i : Nat)
    (hi : i < items.length)
    (hfail : resolvedPrice env items[i] = none) :
    ((price_items env items).items.length = items.length) ∧
    (((price_items env items).items.map Line.unit_monthly)[i]? = some 0) ∧
    (noPriceNote (lowerStr items[i].cloud) (lowerStr items[i].service)
        items[i].sku (pyRegion items[i].region) ∈ (price_items env items).notes) := by
  obtain ⟨hu, hnote⟩ := price_one_fail env items[i] hfail
  refine ⟨by simp [price_items], ?_, ?_⟩
  · have : ((price_items env items).items.map Line.unit_monthly)[i]? =
        some ((price_one env items[i]).1.unit_monthly) := by
      simp [price_items, List.getElem?_map, List.getElem?_eq_getElem hi]
    rw [this, hu]
  · have hmem : price_one env items[i] ∈ items.map (price_one env) :=
      List.mem_map.mpr ⟨items[i], List.getElem_mem hi, rfl⟩
    simp only [price_items]
    exact List.mem_flatMap.mpr ⟨price_one env items[i], hmem, hnote⟩

/-- C5 witness environment: every fetch succeeds with an empty record list,
every cache misses. -/
def envNoRecords : Env :=
  ⟨fun _ _ => .ok [], fun _ => none, fun _ => none, fun _ => none⟩

def itemVmW : PItem := { cloud := "azure", service := "vm", sku := "B2s" }

/-- C5 witness: with an empty catalog, the single VM item is priced at
zero, the "No price found" note is present, and the result still has one
line. -/
theorem price_items_not_found_safe_witness :
    ((price_items envNoRecords [itemVmW]).items.length = [itemVmW].length) ∧
    (((price_items envNoRecords [itemVmW]).items.map Line.unit_monthly)[0]? = some 0) ∧
    (noPriceNote (lowerStr itemVmW.cloud) (lowerStr itemVmW.service)
        itemVmW.sku (pyRegion itemVmW.region) ∈
      (price_items envNoRecords [itemVmW]).notes) :=
  price_items_not_found_safe envNoRecords [itemVmW] 0 (by decide) (by decide)


/-! ### C6: duty-hours scaling -/

instance {e a : Type} [DecidableEq e] [DecidableEq a] : DecidableEq (Except e a) :=
  fun x y =>
    match x, y with
    | .ok u, .ok v =>
      match decEq u v with
      | isTrue h => isTrue (congrArg Except.ok h)
      | isFalse h => isFalse (fun he => h (Except.ok.inj he))
    | .error u, .error v =>
      match decEq u v with
      | isTrue h => isTrue (congrArg Except.error h)
      | isFalse h => isFalse (fun he => h (Except.error.inj he))
    | .ok _, .error _ => isFalse (fun he => Except.noConfusion he)
    | .error _, .ok _ => isFalse (fun he => Except.noConfusion he)

/-- Environment whose rational price cache always hits with value 10, so
every scalar resolver returns 10 without touching the network. -/
def envCacheTen : Env :=
  ⟨fun _ _ => .ok [], fun _ => some 10, fun _ => none, fun _ => none⟩

/-- C6 counterexample: an item with `dutyHours = 0` (which differs from the
full-month constant) is priced at the full month, because Python `or`
treats the explicit `0` as unset; the claim's scaled price would be 0. -/
theorem duty_hours_zero_cex :
    (price_items envCacheTen
        [{ cloud := "azure", service := "vm", sku := "B2s",
           hours := some 0 }]).items.map Line.monthly = [10] ∧
    round2 (10 * ((0 : ℚ) / HOURS_PER_MONTH) * 1) = 0 ∧
    (10 : ℚ) ≠ 0 := by
  have h1 : resolution envCacheTen
      { cloud := "azure", service := "vm", sku := "B2s", hours := some 0 } =
      .ok (some 10, []) := by decide
  refine ⟨?_, ?_, by norm_num⟩
  · simp [price_items, price_one, h1, pyHours, pyQty, HOURS_PER_MONTH]
    norm_num [round2, roundHalfEven, ratFloor]
  · norm_num [round2, roundHalfEven, ratFloor, HOURS_PER_MONTH]

lemma resolution_hours_irrel (env : Env) (cl sv sk : String) (q : Option Int)
    (rg : Option String) (sg h1 h2 : Option ℚ) (cu rl : Option Int)
    (dg : Option ℚ) :
    resolution env ⟨cl, sv, sk, q, rg, sg, h1, cu, rl, dg⟩ =
      resolution env ⟨cl, sv, sk, q, rg, sg, h2, cu, rl, dg⟩ := rfl

/-- C6 amended: for an item whose resolution yields unit price `u` and
whose `dutyHours` is a nonzero `h` different from the full-month constant,
the aggregator scales the monthly price by `h / hoursPerMonth` when
`0 < u` (so the h-hours price and the full-month price stand in the exact
ratio `h / hoursPerMonth` before the final rounding), and applies no
scaling when `u = 0`.  A `dutyHours` of `0` is treated as unset and priced
at the full month. -/
theorem duty_hours_scaling (env : Env) (it : PItem) (u h : ℚ) (ns : List String)
    (hres : resolution env it = .ok (some u, ns))
    (hh : h ≠ 0) (hH : h ≠ HOURS_PER_MONTH) :
    (0 < u →
      ((price_items env [{ it with hours := some h }]).items.map Line.monthly =
        [round2 (u * (h / HOURS_PER_MONTH) * (pyQty it.qty : ℚ))] ∧
      (price_items env [{ it with hours := none }]).items.map Line.monthly =
        [round2 (u * (pyQty it.qty : ℚ))])) ∧
    (u = 0 →
      (price_items env [{ it with hours := some h }]).items.map Line.monthly =
        [round2 (u * (pyQty it.qty : ℚ))]) := by
  obtain ⟨cl, sv, sk, q, rg, sg, hrs, cu, rl, dg⟩ := it
  have hresH : resolution env ⟨cl, sv, sk, q, rg, sg, some h, cu, rl, dg⟩ =
      .ok (some u, ns) :=
    (resolution_hours_irrel env cl sv sk q rg sg (some h) hrs cu rl dg).trans hres
  have hresN : resolution env ⟨cl, sv, sk, q, rg, sg, none, cu, rl, dg⟩ =
      .ok (some u, ns) :=
    (resolution_hours_irrel env cl sv sk q rg sg none hrs cu rl dg).trans hres
  constructor
  · intro hu
    constructor
    · simp [price_items, price_one, hresH, pyHours, hh, hH, hu]
    · simp [price_items, price_one, hresN, pyHours]
  · intro hu
    subst hu
    simp [price_items, price_one, hresH, pyHours, hh, hH]


/-- C6 amended, witness: unit price 10 (a cache hit), duty hours 365,
quantity defaulted to 1. -/
theorem duty_hours_scaling_witness :
    ((0 : ℚ) < 10 →
      ((price_items envCacheTen
          [{ cloud := "azure", service := "vm", sku := "B2s",
             hours := some 365 }]).items.map Line.monthly =
        [round2 (10 * ((365 : ℚ) / HOURS_PER_MONTH) * ((1 : Int) : ℚ))] ∧
      (price_items envCacheTen
          [{ cloud := "azure", service := "vm", sku := "B2s",
             hours := none }]).items.map Line.monthly =
        [round2 (10 * ((1 : Int) : ℚ))])) ∧
    ((10 : ℚ) = 0 →
      (price_items envCacheTen
          [{ cloud := "azure", service := "vm", sku := "B2s",
             hours := some 365 }]).items.map Line.monthly =
        [round2 (10 * ((1 : Int) : ℚ))]) :=
  duty_hours_scaling envCacheTen
    { cloud := "azure", service := "vm", sku := "B2s" } 10 365 []
    (by decide) (by norm_num) (by norm_num [HOURS_PER_MONTH])

/-! ### C10: application-gateway capacity from `size_gb` -/

/-- Environment whose gateway-components cache always hits with base 5 and
per-capacity-unit rate 3. -/
def envGwFive : Env :=
  ⟨fun _ _ => .ok [], fun _ => none, fun _ => none, fun _ => some ⟨5, 3⟩⟩

/-- C10 counterexample: with components {base 5, per-CU 3}, an item with
`size_gb = 2.5` is priced `5 + int(2.5)·3 = 11`, not the claim's
`5 + 2.5·3 = 12.5`; and an item whose `size_gb` attribute is present but
`0` falls back to the default capacity and does get a defaulting note. -/
theorem appgw_size_gb_cex :
    ((price_items envGwFive
        [{ cloud := "azure", service := "app_gateway", sku := "WAF_v2",
           size_gb := some (5 / 2) }]).items.map Line.unit_monthly = [11] ∧
      (11 : ℚ) ≠ 5 + (5 / 2) * 3) ∧
    gwDefaultNote 1 ∈ (price_items envGwFive
        [{ cloud := "azure", service := "app_gateway", sku := "WAF_v2",
           size_gb := some 0 }]).notes := by
  have hc : azure_price_for_appgw_wafv2_components envGwFive "eastus" =
      .ok (some ⟨5, 3⟩) := by decide
  have hlc : lowerStr "azure" = "azure" := by decide
  have hls : lowerStr "app_gateway" = "app_gateway" := by decide
  refine ⟨⟨?_, by norm_num⟩, ?_⟩
  · simp [price_items, price_one, resolution, tryResolve, hc, hlc, hls,
      gwCapacity, pyTruthyInt, pyTruthyRat, pyRegion, pySize,
      USE_LIVE_AZURE_PRICES, DEFAULT_REGION]
    norm_num [pyInt, round2, roundHalfEven, ratFloor]
  · simp [price_items, price_one, resolution, tryResolve, hc, hlc, hls,
      gwCapacity, pyTruthyInt, pyTruthyRat, pyRegion, pySize,
      USE_LIVE_AZURE_PRICES, DEFAULT_REGION, DEFAULT_APPGW_CAPACITY_UNITS]

/-- C10 amended: an application-gateway item with no `capacity_units`
attribute and a nonzero `size_gb` uses `int(size_gb)` (truncated toward
zero) as the capacity-unit count — unit = base + int(size_gb) ×
per-capacity-unit rate — and no defaulting note is appended; a `size_gb`
of zero (or absent) instead uses the default capacity and appends the
note. -/
theorem appgw_size_gb_capacity (env : Env) (it : PItem) (comps : GwComps)
    (g : ℚ)
    (hcloud : lowerStr it.cloud = "azure")
    (hsvc : lowerStr it.service = "app_gateway")
    (hcu : it.capacity_units = none)
    (hg : it.size_gb = some g) (hg0 : g ≠ 0)
    (hcomps : azure_price_for_appgw_wafv2_components env (pyRegion it.region) =
      .ok (some comps)) :
    (price_items env [it]).items.map Line.unit_monthly =
      [round2 (comps.base_monthly +
        (pyInt g : ℚ) * comps.capacity_unit_monthly)] ∧
    (price_items env [it]).notes = [] := by
  constructor <;>
    simp [price_items, price_one, resolution, tryResolve, gwCapacity,
      pyTruthyInt, pyTruthyRat, hcloud, hsvc, hcu, hg, hg0, hcomps,
      USE_LIVE_AZURE_PRICES]

/-- C10 amended, witness: size_gb 2 with components {base 5, per-CU 3}
prices the unit at `round2 (5 + 2·3)` with no notes. -/
theorem appgw_size_gb_capacity_witness :
    (price_items envGwFive
        [{ cloud := "azure", service := "app_gateway", sku := "WAF_v2",
           size_gb := some 2 }]).items.map Line.unit_monthly =
      [round2 ((5 : ℚ) + (pyInt 2 : ℚ) * 3)] ∧
    (price_items envGwFive
        [{ cloud := "azure", service := "app_gateway", sku := "WAF_v2",
           size_gb := some 2 }]).notes = [] :=
  appgw_size_gb_capacity envGwFive
    { cloud := "azure", service := "app_gateway", sku := "WAF_v2",
      size_gb := some 2 } ⟨5, 3⟩ 2
    (by decide) (by decide) rfl rfl (by norm_num) (by decide)



/-! ### C9: cheapest-match selection of the VM resolver -/

lemma bestFold_some (b : ℚ) (ms : List ℚ) (h : ∀ m ∈ ms, m ≠ 0) :
    bestFold (some b) ms = some (ms.foldl min b) := by
  induction ms generalizing b with
  | nil => rfl
  | cons m rest ih =>
    have hm : m ≠ 0 := h m (List.mem_cons_self _ _)
    have hrest : ∀ x ∈ rest, x ≠ 0 := fun x hx => h x (List.mem_cons_of_mem _ hx)
    have hupd : bestUpd (some b) m = some (min b m) := by
      show (if m ≠ 0 ∧ m < b then some m else some b) = some (min b m)
      split
      · next hcond => rw [min_eq_right (le_of_lt hcond.2)]
      · next hcond =>
        have hnl : ¬m < b := fun hlt => hcond ⟨hm, hlt⟩
        rw [min_eq_left (not_lt.mp hnl)]
    show List.foldl bestUpd (bestUpd (some b) m) rest = _
    rw [hupd, List.foldl_cons]
    exact ih (min b m) hrest

lemma bestFold_none (ms : List ℚ) (h : ∀ m ∈ ms, m ≠ 0) :
    bestFold none ms = listMin? ms := by
  cases ms with
  | nil => rfl
  | cons m rest =>
    show List.foldl bestUpd (bestUpd none m) rest = _
    have : bestUpd none m = some m := rfl
    rw [this]
    exact bestFold_some m rest (fun x hx => h x (List.mem_cons_of_mem _ hx))

/-- The VM resolver's scan is the `bestUpd` fold over the concatenated
candidate monthlies. -/
lemma vmGo_eq_collect (env : Env) (fs : List String) (best : Option ℚ) :
    vmGo env fs best =
      match vmCollect env fs with
      | .error e => .error e
      | .ok ms => .ok (bestFold best ms) := by
  induction fs generalizing best with
  | nil => rfl
  | cons f fs ih =>
    cases hf : env.fetch f 80 with
    | error e => simp [vmGo, vmCollect, hf]
    | ok items =>
      simp only [vmGo, vmCollect, hf]
      rw [ih]
      cases hrest : vmCollect env fs with
      | error e => rfl
      | ok rest => simp [bestFold, List.foldl_append]

/-- C9 amended: on a cold cache, when every candidate record's resulting
monthly price is nonzero, the VM resolver returns the minimum resulting
monthly price over all candidates (across all region variants and SKU
spelling fallbacks); with no candidates at all it returns none. -/
theorem vm_price_min_of_nonzero (env : Env) (size region : String)
    (ms : List ℚ)
    (hcache : env.cacheQ (vmKey size region) = none)
    (hms : vmCandidateMonthlies env size region = .ok ms)
    (hnz : ∀ m ∈ ms, m ≠ 0) :
    azure_price_for_vm_size env size region = .ok (listMin? ms) := by
  unfold vmCandidateMonthlies at hms
  simp only [azure_price_for_vm_size, hcache]
  rw [vmGo_eq_collect, hms]
  exact congrArg Except.ok (bestFold_none ms hnz)

/-- One catalog record whose monthly price is 0.70. -/
def recSeventy : Record := ⟨"meter", "prod", "sku", "reg", "1/Month", 7 / 10⟩

/-- One catalog record whose nonzero retail price rounds to a monthly
price of 0. -/
def recTiny : Record := ⟨"meter", "prod", "sku", "reg", "1/Month", 1 / 1000⟩

def envRec07 : Env :=
  ⟨fun _ _ => .ok [recSeventy], fun _ => none, fun _ => none, fun _ => none⟩

def envRec2 : Env :=
  ⟨fun _ _ => .ok [recSeventy, recTiny], fun _ => none, fun _ => none,
   fun _ => none⟩

lemma monthly_recSeventy : monthly_from_retail recSeventy = 7 / 10 := by
  have hh : strContains (lowerStr "1/Month") "hour" = false := by decide
  simp [monthly_from_retail, recSeventy, hh]
  norm_num [round2, roundHalfEven, ratFloor]

lemma monthly_recTiny : monthly_from_retail recTiny = 0 := by
  have hh : strContains (lowerStr "1/Month") "hour" = false := by decide
  simp [monthly_from_retail, recTiny, hh]
  norm_num [round2, roundHalfEven, ratFloor]

lemma vmCollect_envRec07 (fs : List String) :
    vmCollect envRec07 fs = .ok (List.replicate fs.length (7 / 10 : ℚ)) := by
  induction fs with
  | nil => rfl
  | cons f fs ih =>
    show (match vmCollect envRec07 fs with
      | Except.error e => Except.error e
      | Except.ok rest =>
        Except.ok ((poolHourly [recSeventy]).map monthly_from_retail ++ rest)) = _
    rw [ih]
    have hp : poolHourly [recSeventy] = [recSeventy] := by
      simp [poolHourly, isHourly, recSeventy,
        show strContains (lowerStr "1/Month") "hour" = false from by decide]
    simp [hp, monthly_recSeventy, List.replicate_succ]

/-- C9 amended, witness: a catalog that always returns the single 0.70
record; all 12 candidate monthlies are 0.70 and the resolver returns
their minimum. -/
theorem vm_price_min_of_nonzero_witness :
    azure_price_for_vm_size envRec07 "B2s" "eastus" =
      .ok (listMin? (List.replicate 12 (7 / 10 : ℚ))) :=
  vm_price_min_of_nonzero envRec07 "B2s" "eastus"
    (List.replicate 12 (7 / 10)) rfl
    (by rw [vmCandidateMonthlies, vmCollect_envRec07,
          show (vmQueries "B2s" "eastus").length = 12 from by decide])
    (by
      intro m hm
      rw [List.eq_of_mem_replicate hm]
      norm_num)

lemma vmCollect_envRec2 (fs : List String) :
    vmCollect envRec2 fs =
      .ok ((List.replicate fs.length ([7 / 10, 0] : List ℚ)).flatten) := by
  induction fs with
  | nil => rfl
  | cons f fs ih =>
    show (match vmCollect envRec2 fs with
      | Except.error e => Except.error e
      | Except.ok rest =>
        Except.ok ((poolHourly [recSeventy, recTiny]).map monthly_from_retail ++ rest)) = _
    rw [ih]
    have hp : poolHourly [recSeventy, recTiny] = [recSeventy, recTiny] := by
      simp [poolHourly, isHourly, recSeventy, recTiny,
        show strContains (lowerStr "1/Month") "hour" = false from by decide]
    simp [hp, monthly_recSeventy, monthly_recTiny, List.replicate_succ]

lemma bestFold_seventy_zero (n : Nat) :
    bestFold (some (7 / 10)) ((List.replicate n ([7 / 10, 0] : List ℚ)).flatten) =
      some (7 / 10) := by
  induction n with
  | zero => rfl
  | succ n ih =>
    rw [List.replicate_succ]
    show bestFold (some (7 / 10)) (([7 / 10, 0] : List ℚ) ++
      (List.replicate n ([7 / 10, 0] : List ℚ)).flatten) = _
    rw [bestFold, List.foldl_append]
    have h1 : bestUpd (some (7 / 10)) (7 / 10) = some (7 / 10) := by
      show (if (7 : ℚ) / 10 ≠ 0 ∧ (7 : ℚ) / 10 < 7 / 10 then
        some ((7 : ℚ) / 10) else some ((7 : ℚ) / 10)) = some ((7 : ℚ) / 10)
      exact ite_self _
    have h2 : bestUpd (some (7 / 10)) 0 = some (7 / 10) := by
      show (if (0 : ℚ) ≠ 0 ∧ (0 : ℚ) < 7 / 10 then
        some (0 : ℚ) else some ((7 : ℚ) / 10)) = some ((7 : ℚ) / 10)
      rw [if_neg (by norm_num)]
    show List.foldl bestUpd (bestUpd (bestUpd (some (7/10)) (7/10)) 0) _ = _
    rw [h1, h2]
    exact ih

lemma foldl_min_zero (l : List ℚ) (h : ∀ x ∈ l, 0 ≤ x) :
    List.foldl min 0 l = 0 := by
  induction l with
  | nil => rfl
  | cons x rest ih =>
    rw [List.foldl_cons, min_eq_left (h x (List.mem_cons_self _ _))]
    exact ih (fun y hy => h y (List.mem_cons_of_mem _ hy))

/-- All members of a flattened replication of `[7/10, 0]` are 7/10 or 0. -/
lemma mem_flatten_replicate {x : ℚ} {n : Nat} {l : List ℚ}
    (hx : x ∈ (List.replicate n l).flatten) : x ∈ l := by
  obtain ⟨s, hs, hxs⟩ := List.mem_flatten.mp hx
  rwa [List.eq_of_mem_replicate hs] at hxs

lemma bestFold_none_seventy_zero (n : Nat) :
    bestFold none ((List.replicate (n + 1) ([7 / 10, 0] : List ℚ)).flatten) =
      some (7 / 10) := by
  have h2 : bestUpd (some (7 / 10)) 0 = some (7 / 10) := by
    show (if (0 : ℚ) ≠ 0 ∧ (0 : ℚ) < 7 / 10 then
      some (0 : ℚ) else some ((7 : ℚ) / 10)) = some ((7 : ℚ) / 10)
    rw [if_neg (by norm_num)]
  rw [List.replicate_succ]
  show List.foldl bestUpd
    (bestUpd (bestUpd none (7 / 10)) 0)
    ((List.replicate n ([7 / 10, 0] : List ℚ)).flatten) = _
  rw [show bestUpd none (7 / 10) = some (7 / 10) from rfl, h2]
  exact bestFold_seventy_zero n

/-- C9 counterexample: with candidate records pricing to monthly 0.70 and
monthly 0 (a nonzero retail price that rounds to zero), the resolver
returns 0.70 while the minimum over the candidate monthlies is 0 — the
running best is only replaced by a *truthy* smaller value, so a
zero-priced candidate is never selected. -/
theorem vm_price_not_minimum_cex :
    azure_price_for_vm_size envRec2 "B2s" "eastus" = .ok (some (7 / 10)) ∧
    (vmCandidateMonthlies envRec2 "B2s" "eastus").map listMin? =
      .ok (some 0) ∧
    (7 / 10 : ℚ) ≠ 0 := by
  have hq : (vmQueries "B2s" "eastus").length = 12 := by decide
  have hcol : vmCandidateMonthlies envRec2 "B2s" "eastus" =
      .ok ((List.replicate 12 ([7 / 10, 0] : List ℚ)).flatten) := by
    rw [vmCandidateMonthlies, vmCollect_envRec2, hq]
  refine ⟨?_, ?_, by norm_num⟩
  · simp only [azure_price_for_vm_size,
      show envRec2.cacheQ (vmKey "B2s" "eastus") = none from rfl]
    rw [vmGo_eq_collect]
    rw [show vmCollect envRec2 (vmQueries "B2s" "eastus") =
      .ok ((List.replicate 12 ([7 / 10, 0] : List ℚ)).flatten) from hcol]
    show Except.ok (bestFold none _) = _
    rw [show (12 : Nat) = 11 + 1 from rfl, bestFold_none_seventy_zero 11]
  · rw [hcol]
    show Except.ok (listMin? _) = _
    have hL : (List.replicate 12 ([7 / 10, 0] : List ℚ)).flatten =
        (7 / 10 : ℚ) :: 0 ::
          (List.replicate 11 ([7 / 10, 0] : List ℚ)).flatten := by
      rw [show (12 : Nat) = 11 + 1 from rfl, List.replicate_succ]
      rfl
    rw [hL]
    show Except.ok (some (List.foldl min (7 / 10)
      ((0 : ℚ) :: (List.replicate 11 ([7 / 10, 0] : List ℚ)).flatten))) = _
    rw [List.foldl_cons, min_eq_right (by norm_num : (0:ℚ) ≤ 7 / 10),
      foldl_min_zero _ (fun x hx => by
        have := mem_flatten_replicate hx
        simp at this
        rcases this with h | h <;> norm_num [h])]

end ArchGenie
